import Mathlib

/-!
The gomplate `aws` package: EC2 instance information.

A shallow embedding of `aws/ec2info.go` and of the `funcs/aws.go` adapter.

Conventions of the embedding.

* A Go pointer (`*string`, `*ec2.Tag`, ...) is an `Option`; `none` is the nil pointer.
* A Go slice is a `List`; the nil slice and the empty slice are both `[]`, since `len` and
  `range` do not tell them apart. Where the code itself compares a slice with `nil`
  (`Ipv6Addresses`, the `[]net.IP` results) the slice is an `Option (List _)`.
* Dereferencing a nil pointer is the runtime panic `Panic.nilDeref`; functions that can
  panic return `Except Panic _`.
* Remote collaborators (the `InstanceDescriber`, the `Ec2Meta` client, `net.ParseIP`) are
  the fields of `Env`: deterministic transition functions over an arbitrary state type.
* Every operation returns, besides its Go result, the updated `Ec2Info` and the list of
  `DescribeInstances` requests it has issued, in order.
-/

namespace Gomplate

/-! ## The EC2 response and request shapes used by the code -/

/-- Go `ec2.Tag`: `Key` and `Value` are `*string`. -/
structure Tag where
  Key : Option String
  Value : Option String
  deriving DecidableEq, Repr

/-- Go `ec2.InstanceIpv6Address`: `Ipv6Address` is `*string`. -/
structure InstanceIpv6Address where
  Ipv6Address : Option String
  deriving DecidableEq, Repr

/-- Go `ec2.InstanceNetworkInterface`: `Ipv6Addresses` is `[]*InstanceIpv6Address`, kept as an
optional list because the code tests it against `nil`. -/
structure InstanceNetworkInterface where
  Ipv6Addresses : Option (List (Option InstanceIpv6Address))
  deriving DecidableEq, Repr

/-- Go `ec2.Instance`, restricted to the fields the code reads. -/
structure Instance where
  Tags : List (Option Tag)
  PrivateIpAddress : Option String
  PublicIpAddress : Option String
  NetworkInterfaces : List (Option InstanceNetworkInterface)
  deriving DecidableEq, Repr

/-- Go `ec2.Reservation`: `Instances` is `[]*Instance`. -/
structure Reservation where
  Instances : List (Option Instance)
  deriving DecidableEq, Repr

/-- Go `ec2.DescribeInstancesOutput`: `Reservations` is `[]*Reservation`. -/
structure DescribeInstancesOutput where
  Reservations : List (Option Reservation)
  deriving DecidableEq, Repr

/-- Go `ec2.Filter`, as the code builds it (`aws.String` never yields nil). -/
structure Filter where
  Name : String
  Values : List String
  deriving DecidableEq, Repr

/-- Go `ec2.DescribeInstancesInput`, restricted to the two fields the code sets. -/
structure DescribeInstancesInput where
  Filters : List Filter
  InstanceIds : List String
  deriving DecidableEq, Repr

/-- The pair `(*ec2.DescribeInstancesOutput, error)` returned by `DescribeInstances`. -/
structure DescribeReturn where
  output : Option DescribeInstancesOutput
  err : Option String
  deriving DecidableEq, Repr

/-- A Go runtime panic. -/
inductive Panic where
  | nilDeref
  deriving DecidableEq, Repr

/-- Go `net.IP`, a byte slice. -/
abbrev IP := List Nat

/-- Go `ClientOptions`; `Timeout` is a `time.Duration` in nanoseconds. -/
structure ClientOptions where
  Timeout : Int
  deriving DecidableEq, Repr

/-! ## Collaborators -/

/-- Modelled from the spec: the `Ec2Meta` type, declared in `aws/ec2meta.go`, which is not
among the sources. `ec2info.go` reads its boolean `nonAWS` field, the "NonAWS flag" of the
data model; whatever else the client holds is the `client` component. -/
structure Ec2Meta (μ : Type) where
  nonAWS : Bool
  client : μ

/-- The collaborators of `Ec2Info`.

* `describer` is the effect of evaluating `e.describer()` on the describer (lazy construction);
* `DescribeInstances` is the remote call of the `InstanceDescriber` interface;
* `Meta` is `(*Ec2Meta).Meta(key, def...)`, which may update the metadata client;
* `ParseIP` is Go `net.ParseIP`, `none` being the nil `net.IP`. -/
structure Env (σ μ : Type) where
  describer : σ → σ
  DescribeInstances : σ → DescribeInstancesInput → DescribeReturn × σ
  Meta : Ec2Meta μ → String → List String → String × Ec2Meta μ
  ParseIP : String → Option IP

/-! ## `Ec2Info` -/

/-- Go `map[string]interface{}` of `Ec2Info.cache`; the only values ever stored are of type
`*ec2.DescribeInstancesOutput`. -/
abbrev Cache := List (String × Option DescribeInstancesOutput)

/-- Go `v, ok := m[key]`. -/
def Cache.lookup (c : Cache) (key : String) : Option (Option DescribeInstancesOutput) :=
  match c with
  | [] => none
  | (k, v) :: rest => if k = key then some v else Cache.lookup rest key

/-- Go `m[key] = v`. -/
def Cache.insert (c : Cache) (key : String) (v : Option DescribeInstancesOutput) : Cache :=
  match c with
  | [] => [(key, v)]
  | (k, w) :: rest => if k = key then (k, v) :: rest else (k, w) :: Cache.insert rest key v

/-- Go `Ec2Info`. `describer` is the state of the `InstanceDescriber` behind `e.describer`. -/
structure Ec2Info (σ μ : Type) where
  describer : σ
  metaClient : Ec2Meta μ
  cache : Cache

/-- What an operation of `Ec2Info` yields: its Go result, the receiver afterwards, and the
`DescribeInstances` requests issued during the operation. -/
structure Outcome (α σ μ : Type) where
  ret : α
  e : Ec2Info σ μ
  calls : List DescribeInstancesInput

/-- Modelled from the spec: `returnDefault` of `aws/ec2meta.go`, which is not among the
sources: "return `default` if supplied, else the empty string", the first element only of a
variadic default being used. -/
def returnDefault (d : List String) : String :=
  match d with
  | [] => ""
  | x :: _ => x

/-- Go `NewEc2Info`, given the describer behind the accessor closure and the metadata client
built by `NewEc2Meta(options)`. -/
def NewEc2Info {σ μ : Type} (describerClient : σ) (newEc2Meta : ClientOptions → Ec2Meta μ)
    (options : ClientOptions) : Ec2Info σ μ :=
  { describer := describerClient, metaClient := newEc2Meta options, cache := [] }

/-- Go `(*Ec2Info).describeInstance`. -/
def describeInstance {σ μ : Type} (env : Env σ μ) (e : Ec2Info σ μ) :
    Outcome (Option DescribeInstancesOutput) σ μ :=
  let d1 := env.describer e.describer
  if e.metaClient.nonAWS then
    { ret := none, e := { e with describer := d1 }, calls := [] }
  else
    match e.cache.lookup "DescribeInstances" with
    | some cached =>
      { ret := cached, e := { e with describer := d1 }, calls := [] }
    | none =>
      let m := env.Meta e.metaClient "instance-id" []
      let input : DescribeInstancesInput := { Filters := [], InstanceIds := [m.1] }
      let r := env.DescribeInstances (env.describer d1) input
      if r.1.err.isSome then
        { ret := none, e := { describer := r.2, metaClient := m.2, cache := e.cache },
          calls := [input] }
      else
        { ret := r.1.output,
          e := { describer := r.2, metaClient := m.2,
                 cache := e.cache.insert "DescribeInstances" r.1.output },
          calls := [input] }

/-- Go `(*Ec2Info).describeInstances`. -/
def describeInstances {σ μ : Type} (env : Env σ μ) (e : Ec2Info σ μ) (filters : List Filter) :
    Outcome (Option DescribeInstancesOutput) σ μ :=
  let d1 := env.describer e.describer
  if e.metaClient.nonAWS then
    { ret := none, e := { e with describer := d1 }, calls := [] }
  else
    let input : DescribeInstancesInput := { Filters := filters, InstanceIds := [] }
    let r := env.DescribeInstances (env.describer d1) input
    if r.1.err.isSome then
      { ret := none, e := { e with describer := r.2 }, calls := [input] }
    else
      { ret := r.1.output, e := { e with describer := r.2 }, calls := [input] }

/-- The `for _, v := range ...Tags` loop of `Tag`. -/
def tagLoop (tag : String) (d : List String) : List (Option Tag) → Except Panic String
  | [] => .ok (returnDefault d)
  | none :: _ => .error .nilDeref
  | some v :: rest =>
    match v.Key with
    | none => .error .nilDeref
    | some k =>
      if k = tag then
        match v.Value with
        | none => .error .nilDeref
        | some val => .ok val
      else tagLoop tag d rest

/-- The body of `Tag` after the nil check of the description. -/
def tagOfOutput (output : DescribeInstancesOutput) (tag : String) (d : List String) :
    Except Panic String :=
  match output.Reservations with
  | [] => .ok (returnDefault d)
  | none :: _ => .error .nilDeref
  | some r0 :: _ =>
    match r0.Instances with
    | [] => .ok (returnDefault d)
    | none :: _ => .error .nilDeref
    | some i0 :: _ =>
      match i0.Tags with
      | [] => .ok (returnDefault d)
      | tags => tagLoop tag d tags

/-- Go `(*Ec2Info).Tag`. -/
def Ec2Info.Tag {σ μ : Type} (env : Env σ μ) (e : Ec2Info σ μ) (tag : String)
    (d : List String) : Outcome (Except Panic String) σ μ :=
  let o := describeInstance env e
  match o.ret with
  | none => { ret := .ok (returnDefault d), e := o.e, calls := o.calls }
  | some output => { ret := tagOfOutput output tag d, e := o.e, calls := o.calls }

/-- The loop `for _, ipv6address := range networkinterface.Ipv6Addresses`. -/
def ipv6AddressLoop (addrs : List String) :
    List (Option InstanceIpv6Address) → Except Panic (List String)
  | [] => .ok addrs
  | none :: _ => .error .nilDeref
  | some a :: rest =>
    match a.Ipv6Address with
    | none => .error .nilDeref
    | some s => ipv6AddressLoop (addrs ++ [s]) rest

/-- The loop `for _, networkinterface := range inst.NetworkInterfaces` of the `"public_v6"`
case. -/
def networkInterfaceLoop (addrs : List String) :
    List (Option InstanceNetworkInterface) → Except Panic (List String)
  | [] => .ok addrs
  | none :: _ => .error .nilDeref
  | some ni :: rest =>
    match ni.Ipv6Addresses with
    | none => networkInterfaceLoop addrs rest
    | some as =>
      match ipv6AddressLoop addrs as with
      | .error p => .error p
      | .ok addrs1 => networkInterfaceLoop addrs1 rest

/-- The `switch addrType` statement, run for one element of `r.Instances`. -/
def instanceStep (addrType : String) (addrs : List String) (inst : Option Instance) :
    Except Panic (List String) :=
  match inst with
  | none => .error .nilDeref
  | some i =>
    if addrType = "public_v6" then
      networkInterfaceLoop addrs i.NetworkInterfaces
    else if addrType = "public_v4" then
      match i.PublicIpAddress with
      | none => .ok addrs
      | some s => .ok (addrs ++ [s])
    else
      match i.PrivateIpAddress with
      | none => .ok addrs
      | some s => .ok (addrs ++ [s])

/-- The loop `for _, inst := range r.Instances`. -/
def instanceLoop (addrType : String) (addrs : List String) :
    List (Option Instance) → Except Panic (List String)
  | [] => .ok addrs
  | inst :: rest =>
    match instanceStep addrType addrs inst with
    | .error p => .error p
    | .ok addrs1 => instanceLoop addrType addrs1 rest

/-- The loop `for _, r := range candidates.Reservations`. -/
def reservationLoop (addrType : String) (addrs : List String) :
    List (Option Reservation) → Except Panic (List String)
  | [] => .ok addrs
  | none :: _ => .error .nilDeref
  | some r :: rest =>
    match instanceLoop addrType addrs r.Instances with
    | .error p => .error p
    | .ok addrs1 => reservationLoop addrType addrs1 rest

/-- The loop `for _, addr := range addrs` that parses the collected strings. -/
def parseLoop (parseIP : String → Option IP) (parsedAddrs : List IP) : List String → List IP
  | [] => parsedAddrs
  | addr :: rest =>
    match parseIP addr with
    | some parsed => parseLoop parseIP (parsedAddrs ++ [parsed]) rest
    | none => parseLoop parseIP parsedAddrs rest

/-- The two filters `AddressesByTag` passes to `describeInstances`. -/
def addressFilters (tagName tagValue : String) : List Filter :=
  [ { Name := "tag:" ++ tagName, Values := [tagValue] },
    { Name := "instance-state-name", Values := ["running"] } ]

/-- The part of `AddressesByTag` that follows the nil check of `candidates`. -/
def addressesOfOutput (parseIP : String → Option IP) (candidates : DescribeInstancesOutput)
    (addrType : String) : Except Panic (Option (List IP)) :=
  match reservationLoop addrType [] candidates.Reservations with
  | .error p => .error p
  | .ok addrs => .ok (some (parseLoop parseIP [] addrs))

/-- Go `(*Ec2Info).AddressesByTag`. The result `none` is the nil slice. -/
def Ec2Info.AddressesByTag {σ μ : Type} (env : Env σ μ) (e : Ec2Info σ μ)
    (tagName tagValue addrType : String) : Outcome (Except Panic (Option (List IP))) σ μ :=
  if addrType ≠ "private_v4" ∧ addrType ≠ "public_v4" ∧ addrType ≠ "public_v6" then
    { ret := .ok none, e := e, calls := [] }
  else
    let o := describeInstances env e (addressFilters tagName tagValue)
    match o.ret with
    | none => { ret := .ok none, e := o.e, calls := o.calls }
    | some candidates =>
      { ret := addressesOfOutput env.ParseIP candidates addrType, e := o.e, calls := o.calls }

/-! ## Session provider -/

/-- Go `aws.Config`, restricted to the two fields `SDKSession` sets; `HTTPClient` is kept as
the timeout of the `http.Client`. -/
structure Config where
  HTTPClient : Option Int
  Region : Option String
  deriving DecidableEq, Repr

/-- Go `aws.NewConfig()`. -/
def NewConfig : Config := { HTTPClient := none, Region := none }

/-- Go `(*aws.Config).WithHTTPClient(&http.Client{Timeout: timeout})`. -/
def Config.WithHTTPClient (c : Config) (timeout : Int) : Config :=
  { c with HTTPClient := some timeout }

/-- Go `(*aws.Config).WithRegion`. -/
def Config.WithRegion (c : Config) (region : String) : Config :=
  { c with Region := some region }

/-- Go `time.Millisecond`, in nanoseconds. -/
def Millisecond : Int := 1000000

/-- The configuration built inside `sdkSessionInit.Do` of `SDKSession`. `lookupEnv` is
`os.LookupEnv` (`none` when the variable is absent) and `region` stands for
`NewEc2Meta(options).Region()`. -/
def sdkSessionConfig (lookupEnv : String → Option String) (region : ClientOptions → String)
    (options : ClientOptions) : Config :=
  let timeout := if options.Timeout = 0 then 500 * Millisecond else options.Timeout
  let config := NewConfig.WithHTTPClient timeout
  let metaRegion := region options
  let default1 := (lookupEnv "AWS_REGION").isSome
  let default2 := (lookupEnv "AWS_DEFAULT_REGION").isSome
  if metaRegion ≠ "unknown" ∧ default1 = false ∧ default2 = false then
    config.WithRegion metaRegion
  else config

/-- Go `session.Session`, as the options it was created from. -/
structure Session where
  Config : Config
  SharedConfigEnable : Bool
  deriving DecidableEq, Repr

/-- The package variables `sdkSession` and `sdkSessionInit`. -/
structure SessionVars where
  sdkSession : Option Session
  sdkSessionInit : Bool
  deriving DecidableEq, Repr

/-- Go `SDKSession`; `options` is the value of `GetClientOptions()`. -/
def SDKSession (g : SessionVars) (lookupEnv : String → Option String)
    (region : ClientOptions → String) (options : ClientOptions) :
    Option Session × SessionVars :=
  if g.sdkSessionInit then (g.sdkSession, g)
  else
    let s : Session :=
      { Config := sdkSessionConfig lookupEnv region options, SharedConfigEnable := true }
    (some s, { sdkSession := some s, sdkSessionInit := true })

/-! ## The `funcs` adapter -/

/-- Go `funcs.Funcs`. -/
structure Funcs (σ μ : Type) where
  meta : Option (Ec2Meta μ)
  info : Option (Ec2Info σ μ)
  metaInit : Bool
  infoInit : Bool
  awsopts : ClientOptions

/-- What `funcs` needs to construct its clients: the describer behind the accessor closure of
`NewEc2Info`, and `aws.NewEc2Meta`. -/
structure FuncsEnv (σ μ : Type) where
  describerClient : σ
  NewEc2Meta : ClientOptions → Ec2Meta μ

/-- Go `(*Funcs).initInfo`. -/
def Funcs.initInfo {σ μ : Type} (fenv : FuncsEnv σ μ) (a : Funcs σ μ) : Funcs σ μ :=
  match a.info with
  | none => { a with info := some (NewEc2Info fenv.describerClient fenv.NewEc2Meta a.awsopts) }
  | some _ => a

/-- Go `a.infoInit.Do(a.initInfo)`. -/
def Funcs.infoInitDo {σ μ : Type} (fenv : FuncsEnv σ μ) (a : Funcs σ μ) : Funcs σ μ :=
  if a.infoInit then a else { Funcs.initInfo fenv a with infoInit := true }

/-- What an operation of `Funcs` yields. -/
structure FuncsOutcome (α σ μ : Type) where
  ret : α
  a : Funcs σ μ
  calls : List DescribeInstancesInput

/-- The call `a.info.AddressesByTag(tagName, tagValue, addrType)` on the pointer `a.info`: on a
nil receiver the method returns before touching the receiver when `addrType` is not
recognised, and panics at `e.describer()` otherwise. -/
def Funcs.infoAddressesByTag {σ μ : Type} (env : Env σ μ) (a : Funcs σ μ)
    (tagName tagValue addrType : String) : FuncsOutcome (Except Panic (Option (List IP))) σ μ :=
  match a.info with
  | none =>
    if addrType ≠ "private_v4" ∧ addrType ≠ "public_v4" ∧ addrType ≠ "public_v6" then
      { ret := .ok none, a := a, calls := [] }
    else { ret := .error .nilDeref, a := a, calls := [] }
  | some e =>
    let o := e.AddressesByTag env tagName tagValue addrType
    { ret := o.ret, a := { a with info := some o.e }, calls := o.calls }

/-- Go `(*Funcs).DiscoverAddrsByEC2Tag`. -/
def Funcs.DiscoverAddrsByEC2Tag {σ μ : Type} (fenv : FuncsEnv σ μ) (env : Env σ μ)
    (a : Funcs σ μ) (tagName tagValue : String) (addrType : List String) :
    FuncsOutcome (Except Panic (Option (List IP))) σ μ :=
  let a1 := a.infoInitDo fenv
  let realAddrType :=
    match addrType with
    | [k] => k
    | _ => "private_v4"
  a1.infoAddressesByTag env tagName tagValue realAddrType

/-! ## Specification-side notions -/

/-- The request `describeInstance` sends for the local instance, whose id it has obtained
from `Meta("instance-id")`. -/
def localInstanceRequest {σ μ : Type} (env : Env σ μ) (e : Ec2Info σ μ) :
    DescribeInstancesInput :=
  { Filters := [], InstanceIds := [(env.Meta e.metaClient "instance-id" []).1] }

/-- What the describer answers when `e` sends it `input`: the accessor `e.describer()` has
been evaluated twice by then. -/
def describerReply {σ μ : Type} (env : Env σ μ) (e : Ec2Info σ μ)
    (input : DescribeInstancesInput) : DescribeReturn :=
  (env.DescribeInstances (env.describer (env.describer e.describer)) input).1

/-- The description of the local instance is `o` (`none` being a nil response): it is the
cached one, or nothing is cached and the describer returns it without error. -/
def Ec2Info.Describes {σ μ : Type} (env : Env σ μ) (e : Ec2Info σ μ)
    (o : Option DescribeInstancesOutput) : Prop :=
  e.cache.lookup "DescribeInstances" = some o ∨
    (e.cache.lookup "DescribeInstances" = none ∧
      describerReply env e (localInstanceRequest env e) = { output := o, err := none })

instance {σ μ : Type} (env : Env σ μ) (e : Ec2Info σ μ) (o : Option DescribeInstancesOutput) :
    Decidable (e.Describes env o) := by
  unfold Ec2Info.Describes; infer_instance

instance {ε α : Type} [DecidableEq ε] [DecidableEq α] : DecidableEq (Except ε α) := fun a b =>
  match a, b with
  | .ok x, .ok y =>
    if h : x = y then isTrue (by rw [h]) else isFalse (by intro h2; cases h2; exact h rfl)
  | .error x, .error y =>
    if h : x = y then isTrue (by rw [h]) else isFalse (by intro h2; cases h2; exact h rfl)
  | .ok _, .error _ => isFalse (by intro h; cases h)
  | .error _, .ok _ => isFalse (by intro h; cases h)

/-- The tag list of the local instance: the first instance of the first reservation. -/
def localTags (out : DescribeInstancesOutput) : List (Option Tag) :=
  match out.Reservations with
  | some r :: _ =>
    match r.Instances with
    | some i :: _ => i.Tags
    | _ => []
  | _ => []

/-- A tag record that is present and has a key and a value. -/
def wfTag : Option Tag → Bool
  | some { Key := some _, Value := some _ } => true
  | _ => false

/-- An IPv6 address record that is present and has its address. -/
def wfIpv6Address : Option InstanceIpv6Address → Bool
  | some { Ipv6Address := some _ } => true
  | _ => false

/-- A network interface record that is present, with well-formed address records. -/
def wfNetworkInterface : Option InstanceNetworkInterface → Bool
  | some { Ipv6Addresses := some as } => as.all wfIpv6Address
  | some { Ipv6Addresses := none } => true
  | none => false

/-- An instance record that is present, with well-formed tags and interfaces. -/
def wfInstance : Option Instance → Bool
  | some i => i.Tags.all wfTag && i.NetworkInterfaces.all wfNetworkInterface
  | none => false

/-- A reservation record that is present, with well-formed instances. -/
def wfReservation : Option Reservation → Bool
  | some r => r.Instances.all wfInstance
  | none => false

/-- The response has the shape of the data model: reservations of instance records, each with
`(key, value)` tags, optional private and public IPv4 fields, and network interfaces with
IPv6 addresses; no record is a nil pointer. -/
def DescribeInstancesOutput.WellFormed (out : DescribeInstancesOutput) : Prop :=
  out.Reservations.all wfReservation = true

instance (out : DescribeInstancesOutput) : Decidable out.WellFormed := by
  unfold DescribeInstancesOutput.WellFormed; infer_instance

/-- The address strings one instance contributes, in the words of the specification:
`private_v4`, the private IPv4 field if present; `public_v4`, the public IPv4 field if
present; `public_v6`, every IPv6 address of every network interface. -/
def specInstanceAddrs (addressKind : String) (i : Instance) : List String :=
  if addressKind = "private_v4" then i.PrivateIpAddress.toList
  else if addressKind = "public_v4" then i.PublicIpAddress.toList
  else if addressKind = "public_v6" then
    i.NetworkInterfaces.reduceOption.flatMap fun ni =>
      ((ni.Ipv6Addresses.getD []).reduceOption.map fun a => a.Ipv6Address).reduceOption
  else []

/-- The address strings of a response, walking reservations and then instances in order. -/
def specCollected (addressKind : String) (out : DescribeInstancesOutput) : List String :=
  out.Reservations.reduceOption.flatMap fun r =>
    r.Instances.reduceOption.flatMap (specInstanceAddrs addressKind)

/-- The addresses of a response in the words of the specification: the collected strings, of
which those that do not parse as an IP literal are dropped. -/
def specAddresses (parseIP : String → Option IP) (addressKind : String)
    (out : DescribeInstancesOutput) : List IP :=
  (specCollected addressKind out).filterMap parseIP

/-- The requests issued by each call of a sequence of `Tag` calls on one `Ec2Info`. -/
def tagCalls {σ μ : Type} (env : Env σ μ) :
    Ec2Info σ μ → List (String × List String) → List (List DescribeInstancesInput)
  | _, [] => []
  | e, (t, d) :: rest => (e.Tag env t d).calls :: tagCalls env (e.Tag env t d).e rest

/-! ## Test doubles -/

/-- A call-counting fake describer that answers every request with `r`. -/
def fakeEnv (r : DescribeReturn) : Env Nat Unit :=
  { describer := fun n => n
    DescribeInstances := fun n _ => (r, n + 1)
    Meta := fun m _ _ => ("i-0123", m)
    ParseIP := fun s =>
      if s = "10.0.0.1" then some [10, 0, 0, 1]
      else if s = "10.0.0.2" then some [10, 0, 0, 2]
      else if s = "52.0.0.9" then some [52, 0, 0, 9]
      else if s = "2001:db8::1" then some [32, 1, 13, 184, 0, 0, 0, 0, 0, 0, 0, 0, 0, 0, 0, 1]
      else none }

/-- An `Ec2Info` with an empty cache, in a cloud environment unless `nonAWS` is set. -/
def fakeInfo (nonAWS : Bool) : Ec2Info Nat Unit :=
  { describer := 0, metaClient := { nonAWS := nonAWS, client := () }, cache := [] }

/-- An instance record with the given tags and addresses. -/
def mkInstance (tags : List (String × String)) (priv pub : Option String)
    (v6 : List (List String)) : Option Instance :=
  some
    { Tags := tags.map fun kv => some { Key := some kv.1, Value := some kv.2 }
      PrivateIpAddress := priv
      PublicIpAddress := pub
      NetworkInterfaces := v6.map fun as =>
        some { Ipv6Addresses := some (as.map fun a => some { Ipv6Address := some a }) } }

/-- The local instance of the tag scenario: tags `Name = web-1`, `env = prod`, and a second
`env` tag after the first. -/
def tagScenario : DescribeInstancesOutput :=
  { Reservations :=
      [some { Instances :=
        [mkInstance [("Name", "web-1"), ("env", "prod"), ("env", "later")]
          (some "10.0.0.1") none []] }] }

/-- The fleet of the address scenario: private addresses `10.0.0.2`, `10.0.0.1`, none,
`10.0.0.2` again and an unparsable one, over two reservations. -/
def addressScenario : DescribeInstancesOutput :=
  { Reservations :=
      [some { Instances :=
        [mkInstance [] (some "10.0.0.2") (some "52.0.0.9") [["2001:db8::1"], []],
         mkInstance [] (some "10.0.0.1") none [["bogus", "2001:db8::1"]],
         mkInstance [] none (some "not-an-ip") []] },
       some { Instances :=
        [mkInstance [] (some "10.0.0.2") (some "52.0.0.9") [],
         mkInstance [] (some "10.0.0.300") none []] }] }

/-- A `Funcs` as `AWSNS` builds it: no client constructed yet. -/
def fakeFuncs : Funcs Nat Unit :=
  { meta := none, info := none, metaInit := false, infoInit := false,
    awsopts := { Timeout := 0 } }

/-- The constructors behind `fakeFuncs`: a describer that has seen no call and a metadata
client in a cloud environment. -/
def fakeFuncsEnv : FuncsEnv Nat Unit :=
  { describerClient := 0, NewEc2Meta := fun _ => { nonAWS := false, client := () } }

/-! ## Lemmas on the cache and on `describeInstance` -/

theorem Cache.lookup_insert (c : Cache) (key : String) (v : Option DescribeInstancesOutput) :
    (c.insert key v).lookup key = some v := by
  induction c with
  | nil => simp [Cache.insert, Cache.lookup]
  | cons kw rest ih =>
    obtain ⟨k, w⟩ := kw
    by_cases h : k = key
    · simp [Cache.insert, Cache.lookup, h]
    · simp [Cache.insert, Cache.lookup, h, ih]

theorem describeInstance_nonAWS {σ μ : Type} (env : Env σ μ) (e : Ec2Info σ μ)
    (h : e.metaClient.nonAWS = true) :
    describeInstance env e =
      { ret := none, e := { e with describer := env.describer e.describer }, calls := [] } := by
  simp [describeInstance, h]

theorem describeInstance_cached {σ μ : Type} (env : Env σ μ) (e : Ec2Info σ μ)
    (o : Option DescribeInstancesOutput) (hcloud : e.metaClient.nonAWS = false)
    (h : e.cache.lookup "DescribeInstances" = some o) :
    describeInstance env e =
      { ret := o, e := { e with describer := env.describer e.describer }, calls := [] } := by
  simp [describeInstance, hcloud, h]

theorem describeInstance_fetch_ok {σ μ : Type} (env : Env σ μ) (e : Ec2Info σ μ)
    (hcloud : e.metaClient.nonAWS = false)
    (hmiss : e.cache.lookup "DescribeInstances" = none)
    (herr : (describerReply env e (localInstanceRequest env e)).err = none) :
    (describeInstance env e).ret = (describerReply env e (localInstanceRequest env e)).output ∧
    (describeInstance env e).calls = [localInstanceRequest env e] ∧
    (describeInstance env e).e.cache.lookup "DescribeInstances" =
      some (describerReply env e (localInstanceRequest env e)).output := by
  simp only [describerReply, localInstanceRequest] at herr
  simp [describeInstance, hcloud, hmiss, describerReply, localInstanceRequest, herr,
    Cache.lookup_insert]

theorem describeInstance_fetch_err {σ μ : Type} (env : Env σ μ) (e : Ec2Info σ μ)
    (hcloud : e.metaClient.nonAWS = false)
    (hmiss : e.cache.lookup "DescribeInstances" = none)
    (herr : (describerReply env e (localInstanceRequest env e)).err.isSome = true) :
    (describeInstance env e).ret = none ∧
    (describeInstance env e).calls = [localInstanceRequest env e] ∧
    (describeInstance env e).e.cache = e.cache := by
  simp only [describerReply, localInstanceRequest] at herr
  simp [describeInstance, hcloud, hmiss, localInstanceRequest, herr]

theorem describeInstance_of_describes {σ μ : Type} (env : Env σ μ) (e : Ec2Info σ μ)
    (o : Option DescribeInstancesOutput) (hcloud : e.metaClient.nonAWS = false)
    (h : e.Describes env o) : (describeInstance env e).ret = o := by
  rcases h with h | ⟨hmiss, hreply⟩
  · rw [describeInstance_cached env e o hcloud h]
  · have herr : (describerReply env e (localInstanceRequest env e)).err = none := by
      rw [hreply]
    rw [(describeInstance_fetch_ok env e hcloud hmiss herr).1, hreply]

/-! ## Lemmas on the tag scan -/

theorem returnDefault_eq (d : List String) : returnDefault d = d.headD "" := by
  cases d <;> rfl

theorem tagLoop_first_match (t : String) (d : List String) (v : String)
    (post : List (Option Tag)) :
    ∀ pre : List (String × Option String),
      (∀ kv ∈ pre, kv.1 ≠ t) →
      tagLoop t d
        (pre.map (fun kv => some { Key := some kv.1, Value := kv.2 }) ++
          some { Key := some t, Value := some v } :: post) = .ok v := by
  intro pre
  induction pre with
  | nil => intro _; simp [tagLoop]
  | cons x pre ih =>
    intro hpre
    have hne : x.1 ≠ t := hpre x (List.mem_cons_self _ _)
    have ih1 := ih fun z hz => hpre z (List.mem_cons_of_mem _ hz)
    simp only [List.map_cons, List.cons_append, tagLoop, hne, if_false]
    exact ih1

theorem tagLoop_no_match (t : String) (d : List String) :
    ∀ tags : List (Option Tag),
      (∀ x ∈ tags, ∃ y, x = some y ∧ ∃ k, y.Key = some k ∧ k ≠ t) →
      tagLoop t d tags = .ok (returnDefault d) := by
  intro tags
  induction tags with
  | nil => intro _; simp [tagLoop]
  | cons x tags ih =>
    intro h
    obtain ⟨y, rfl, k, hk, hne⟩ := h x (List.mem_cons_self _ _)
    have ih1 := ih fun z hz => h z (List.mem_cons_of_mem _ hz)
    simp [tagLoop, hk, hne, ih1]

theorem tagOfOutput_eq_tagLoop (out : DescribeInstancesOutput) (t : String) (d : List String)
    (h : localTags out ≠ []) : tagOfOutput out t d = tagLoop t d (localTags out) := by
  rcases out with ⟨_ | ⟨_ | ⟨⟨_ | ⟨_ | ⟨⟨_ | ⟨tg, tgs⟩, pr, pu, nis⟩⟩, is⟩⟩⟩, rs⟩⟩ <;>
    simp [localTags] at h
  simp [tagOfOutput, localTags]

theorem wfTag_key {x : Option Tag} (h : wfTag x = true) :
    ∃ y, x = some y ∧ ∃ k, y.Key = some k := by
  match x, h with
  | some { Key := some k, Value := some _ }, _ => exact ⟨_, rfl, k, rfl⟩

theorem tagOfOutput_no_match (out : DescribeInstancesOutput) (t : String) (d : List String)
    (hwf : out.WellFormed)
    (hno : ∀ x ∈ localTags out, x.bind Tag.Key ≠ some t) :
    tagOfOutput out t d = .ok (returnDefault d) := by
  unfold DescribeInstancesOutput.WellFormed at hwf
  rcases out with ⟨_ | ⟨_ | ⟨⟨_ | ⟨_ | ⟨⟨_ | ⟨tg, tgs⟩, pr, pu, nis⟩⟩, is⟩⟩⟩, rs⟩⟩ <;>
    simp [wfReservation, wfInstance] at hwf <;> simp [tagOfOutput]
  simp only [localTags] at hno
  apply tagLoop_no_match
  intro x hx
  have hx1 : wfTag x = true := by
    rcases List.mem_cons.1 hx with rfl | hx2
    · exact hwf.1.1.1.1
    · exact hwf.1.1.1.2 x hx2
  obtain ⟨y, rfl, k, hk⟩ := wfTag_key hx1
  refine ⟨y, rfl, k, hk, ?_⟩
  intro hkt
  exact hno _ hx (by simp [hk, hkt])

/-! ## The claims on `Tag` -/

/-- C1. In a cloud environment (`nonAWS` false), when the description of the local instance
is `out` (cached, or returned by the describer without error) and the tag list of the
first instance of the first reservation consists of tags `pre` whose keys all differ from
`t`, then a tag with key `t` and value `v`, then any tags `post` (which may carry the key
`t` again), `Tag(t, d...)` returns `v`, whatever the default `d`. -/
theorem Tag_returns_first_matching_value {σ μ : Type} (env : Env σ μ) (e : Ec2Info σ μ)
    (t : String) (d : List String) (out : DescribeInstancesOutput)
    (pre : List (String × Option String)) (v : String) (post : List (Option Tag))
    (hcloud : e.metaClient.nonAWS = false)
    (hdesc : e.Describes env (some out))
    (htags : localTags out =
      pre.map (fun kv => some { Key := some kv.1, Value := kv.2 }) ++
        some { Key := some t, Value := some v } :: post)
    (hfirst : ∀ kv ∈ pre, kv.1 ≠ t) :
    (e.Tag env t d).ret = .ok v := by
  have hret := describeInstance_of_describes env e (some out) hcloud hdesc
  have hne : localTags out ≠ [] := by rw [htags]; simp
  simp only [Ec2Info.Tag, hret]
  rw [tagOfOutput_eq_tagLoop out t d hne, htags]
  exact tagLoop_first_match t d v post pre hfirst

/-- Witness of C1: tags `Name = web-1`, `env = prod`, `env = later`; `Tag("env", "unknown")`
is `"prod"`. -/
theorem Tag_returns_first_matching_value_witness :
    ((fakeInfo false).Tag (fakeEnv { output := some tagScenario, err := none })
      "env" ["unknown"]).ret = .ok "prod" :=
  Tag_returns_first_matching_value (fakeEnv { output := some tagScenario, err := none })
    (fakeInfo false) "env" ["unknown"] tagScenario [("Name", some "web-1")] "prod"
    [some { Key := some "env", Value := some "later" }]
    (by decide) (by decide) (by decide) (by decide)

/-- C2. When the description of the local instance is `o` (cached, or returned by the
describer without error; a nil response, a response with no reservations, no instances or no
tags included), is well formed, and no tag of the local instance has the key `t`,
`Tag(t, d)` returns `d` for every default `d` and `Tag(t)` returns the empty string. -/
theorem Tag_returns_default_when_absent {σ μ : Type} (env : Env σ μ) (e : Ec2Info σ μ)
    (t : String) (o : Option DescribeInstancesOutput)
    (hdesc : e.Describes env o)
    (hwf : ∀ out, o = some out → out.WellFormed)
    (hno : ∀ out, o = some out → ∀ x ∈ localTags out, x.bind Tag.Key ≠ some t) :
    (∀ d : String, (e.Tag env t [d]).ret = .ok d) ∧ (e.Tag env t []).ret = .ok "" := by
  have key : ∀ ds : List String, (e.Tag env t ds).ret = .ok (returnDefault ds) := by
    intro ds
    cases hflag : e.metaClient.nonAWS with
    | true => simp [Ec2Info.Tag, describeInstance_nonAWS env e hflag]
    | false =>
      have hret := describeInstance_of_describes env e o hflag hdesc
      cases o with
      | none => simp [Ec2Info.Tag, hret]
      | some out =>
        simp only [Ec2Info.Tag, hret]
        exact tagOfOutput_no_match out t ds (hwf out rfl) (hno out rfl)
  exact ⟨fun d => key [d], key []⟩

/-- Witness of C2: with tags `Name` and `env`, `Tag("missing", "fallback")` is `"fallback"`
and `Tag("missing")` is empty. -/
theorem Tag_returns_default_when_absent_witness :
    (∀ d : String,
      ((fakeInfo false).Tag (fakeEnv { output := some tagScenario, err := none })
        "missing" [d]).ret = .ok d) ∧
    ((fakeInfo false).Tag (fakeEnv { output := some tagScenario, err := none })
      "missing" []).ret = .ok "" :=
  Tag_returns_default_when_absent (fakeEnv { output := some tagScenario, err := none })
    (fakeInfo false) "missing" (some tagScenario) (by decide)
    (by intro out h; cases h; decide) (by intro out h; cases h; decide)

/-- C6. When nothing is cached and the describer answers the request for the local instance
with an error, `Tag(t, d)` returns `d` for every default `d` and `Tag(t)` returns the empty
string: the result is a string and the error is not surfaced. -/
theorem Tag_returns_default_on_describer_error {σ μ : Type} (env : Env σ μ) (e : Ec2Info σ μ)
    (t : String)
    (hmiss : e.cache.lookup "DescribeInstances" = none)
    (herr : (describerReply env e (localInstanceRequest env e)).err.isSome = true) :
    (∀ d : String, (e.Tag env t [d]).ret = .ok d) ∧ (e.Tag env t []).ret = .ok "" := by
  have key : ∀ ds : List String, (e.Tag env t ds).ret = .ok (returnDefault ds) := by
    intro ds
    cases hflag : e.metaClient.nonAWS with
    | true => simp [Ec2Info.Tag, describeInstance_nonAWS env e hflag]
    | false =>
      have hret := (describeInstance_fetch_err env e hflag hmiss herr).1
      simp [Ec2Info.Tag, hret]
  exact ⟨fun d => key [d], key []⟩

/-- Witness of C6: a describer that fails with "timeout". -/
theorem Tag_returns_default_on_describer_error_witness :
    (∀ d : String,
      ((fakeInfo false).Tag (fakeEnv { output := none, err := some "timeout" })
        "env" [d]).ret = .ok d) ∧
    ((fakeInfo false).Tag (fakeEnv { output := none, err := some "timeout" })
      "env" []).ret = .ok "" :=
  Tag_returns_default_on_describer_error (fakeEnv { output := none, err := some "timeout" })
    (fakeInfo false) "env" (by decide) (by decide)

/-! ## The claims on `AddressesByTag` and on the non-cloud flag -/

/-- C5. For an `addrType` other than `"private_v4"`, `"public_v4"` and `"public_v6"`,
`AddressesByTag` returns the nil slice, issues no `DescribeInstances` request and leaves the
receiver as it was. -/
theorem AddressesByTag_invalid_kind {σ μ : Type} (env : Env σ μ) (e : Ec2Info σ μ)
    (tagName tagValue addrType : String)
    (h1 : addrType ≠ "private_v4") (h2 : addrType ≠ "public_v4")
    (h3 : addrType ≠ "public_v6") :
    (e.AddressesByTag env tagName tagValue addrType).ret = .ok none ∧
    (e.AddressesByTag env tagName tagValue addrType).calls = [] ∧
    (e.AddressesByTag env tagName tagValue addrType).e = e := by
  simp [Ec2Info.AddressesByTag, h1, h2, h3]

/-- Witness of C5: the kind `"private_v6"` against a describer that would answer. -/
theorem AddressesByTag_invalid_kind_witness :
    ((fakeInfo false).AddressesByTag (fakeEnv { output := some addressScenario, err := none })
      "role" "web" "private_v6").ret = .ok none ∧
    ((fakeInfo false).AddressesByTag (fakeEnv { output := some addressScenario, err := none })
      "role" "web" "private_v6").calls = [] ∧
    ((fakeInfo false).AddressesByTag (fakeEnv { output := some addressScenario, err := none })
      "role" "web" "private_v6").e = fakeInfo false :=
  AddressesByTag_invalid_kind (fakeEnv { output := some addressScenario, err := none })
    (fakeInfo false) "role" "web" "private_v6" (by decide) (by decide) (by decide)

theorem describeInstances_nonAWS {σ μ : Type} (env : Env σ μ) (e : Ec2Info σ μ)
    (filters : List Filter) (h : e.metaClient.nonAWS = true) :
    describeInstances env e filters =
      { ret := none, e := { e with describer := env.describer e.describer }, calls := [] } := by
  simp [describeInstances, h]

/-- C7. When the `nonAWS` flag of the metadata client is set, every `Tag` call returns the
supplied default (the empty string without one) and every `AddressesByTag` call returns the
nil slice; neither issues a `DescribeInstances` request, and both leave the cache and the
metadata client, hence the flag, unchanged. -/
theorem nonAWS_short_circuits {σ μ : Type} (env : Env σ μ) (e : Ec2Info σ μ)
    (hflag : e.metaClient.nonAWS = true) :
    (∀ (t : String) (ds : List String),
      (e.Tag env t ds).ret = .ok (ds.headD "") ∧
      (e.Tag env t ds).calls = [] ∧
      (e.Tag env t ds).e.cache = e.cache ∧
      (e.Tag env t ds).e.metaClient = e.metaClient) ∧
    (∀ tagName tagValue addrType : String,
      (e.AddressesByTag env tagName tagValue addrType).ret = .ok none ∧
      (e.AddressesByTag env tagName tagValue addrType).calls = [] ∧
      (e.AddressesByTag env tagName tagValue addrType).e.cache = e.cache ∧
      (e.AddressesByTag env tagName tagValue addrType).e.metaClient = e.metaClient) := by
  constructor
  · intro t ds
    simp [Ec2Info.Tag, describeInstance_nonAWS env e hflag, returnDefault_eq]
  · intro tagName tagValue addrType
    by_cases hk : addrType ≠ "private_v4" ∧ addrType ≠ "public_v4" ∧ addrType ≠ "public_v6"
    · simp [Ec2Info.AddressesByTag, hk]
    · simp [Ec2Info.AddressesByTag, hk, describeInstances_nonAWS env e _ hflag]

/-- Witness of C7: the flag set, against a describer that would answer. -/
theorem nonAWS_short_circuits_witness :
    (∀ (t : String) (ds : List String),
      ((fakeInfo true).Tag (fakeEnv { output := some tagScenario, err := none }) t ds).ret =
        .ok (ds.headD "") ∧
      ((fakeInfo true).Tag (fakeEnv { output := some tagScenario, err := none }) t ds).calls =
        [] ∧
      ((fakeInfo true).Tag (fakeEnv { output := some tagScenario, err := none }) t ds).e.cache =
        (fakeInfo true).cache ∧
      ((fakeInfo true).Tag (fakeEnv { output := some tagScenario, err := none })
        t ds).e.metaClient = (fakeInfo true).metaClient) ∧
    (∀ tagName tagValue addrType : String,
      ((fakeInfo true).AddressesByTag (fakeEnv { output := some tagScenario, err := none })
        tagName tagValue addrType).ret = .ok none ∧
      ((fakeInfo true).AddressesByTag (fakeEnv { output := some tagScenario, err := none })
        tagName tagValue addrType).calls = [] ∧
      ((fakeInfo true).AddressesByTag (fakeEnv { output := some tagScenario, err := none })
        tagName tagValue addrType).e.cache = (fakeInfo true).cache ∧
      ((fakeInfo true).AddressesByTag (fakeEnv { output := some tagScenario, err := none })
        tagName tagValue addrType).e.metaClient = (fakeInfo true).metaClient) :=
  nonAWS_short_circuits (fakeEnv { output := some tagScenario, err := none }) (fakeInfo true)
    (by decide)

theorem describeInstances_cache {σ μ : Type} (env : Env σ μ) (e : Ec2Info σ μ)
    (filters : List Filter) :
    (describeInstances env e filters).e.cache = e.cache ∧
    (describeInstances env e filters).e.metaClient = e.metaClient := by
  unfold describeInstances
  simp only
  split
  · exact ⟨rfl, rfl⟩
  · split <;> exact ⟨rfl, rfl⟩

theorem describeInstances_cloud {σ μ : Type} (env : Env σ μ) (e : Ec2Info σ μ)
    (filters : List Filter) (hcloud : e.metaClient.nonAWS = false) :
    (describeInstances env e filters).calls = [{ Filters := filters, InstanceIds := [] }] ∧
    (describeInstances env e filters).ret =
      if (describerReply env e { Filters := filters, InstanceIds := [] }).err.isSome then none
      else (describerReply env e { Filters := filters, InstanceIds := [] }).output := by
  unfold describeInstances describerReply
  simp only [hcloud, Bool.false_eq_true, if_false]
  split <;> exact ⟨rfl, rfl⟩

theorem describeInstances_any_cache {σ μ : Type} (env : Env σ μ) (e : Ec2Info σ μ)
    (filters : List Filter) (c : Cache) :
    (describeInstances env { e with cache := c } filters).ret =
      (describeInstances env e filters).ret ∧
    (describeInstances env { e with cache := c } filters).calls =
      (describeInstances env e filters).calls := by
  unfold describeInstances
  simp only
  split
  · exact ⟨rfl, rfl⟩
  · split <;> exact ⟨rfl, rfl⟩

theorem AddressesByTag_valid {σ μ : Type} (env : Env σ μ) (e : Ec2Info σ μ)
    (tagName tagValue addrType : String)
    (hkind : addrType = "private_v4" ∨ addrType = "public_v4" ∨ addrType = "public_v6") :
    (e.AddressesByTag env tagName tagValue addrType).calls =
      (describeInstances env e (addressFilters tagName tagValue)).calls ∧
    (e.AddressesByTag env tagName tagValue addrType).e =
      (describeInstances env e (addressFilters tagName tagValue)).e ∧
    (e.AddressesByTag env tagName tagValue addrType).ret =
      match (describeInstances env e (addressFilters tagName tagValue)).ret with
      | none => .ok none
      | some candidates => addressesOfOutput env.ParseIP candidates addrType := by
  have hvalid :
      ¬ (addrType ≠ "private_v4" ∧ addrType ≠ "public_v4" ∧ addrType ≠ "public_v6") := by
    rcases hkind with h | h | h <;> simp [h]
  unfold Ec2Info.AddressesByTag
  simp only [hvalid, if_false]
  cases (describeInstances env e (addressFilters tagName tagValue)).ret <;> simp

/-- C8. In a cloud environment and for a valid `addrType`, every `AddressesByTag` call,
whatever the state of the receiver, issues exactly one `DescribeInstances` request, carrying
the filters `tag:<tagName> = [tagValue]` and `instance-state-name = ["running"]` in that
order; the cache is left as it was, and replacing the cache by any other changes neither the
result nor the request; when the describer answers with an error the result is the nil
slice. -/
theorem AddressesByTag_is_not_memoized {σ μ : Type} (env : Env σ μ) (e : Ec2Info σ μ)
    (tagName tagValue addrType : String)
    (hkind : addrType = "private_v4" ∨ addrType = "public_v4" ∨ addrType = "public_v6")
    (hcloud : e.metaClient.nonAWS = false) :
    (e.AddressesByTag env tagName tagValue addrType).calls =
      [{ Filters := [{ Name := "tag:" ++ tagName, Values := [tagValue] },
                     { Name := "instance-state-name", Values := ["running"] }],
         InstanceIds := [] }] ∧
    (e.AddressesByTag env tagName tagValue addrType).e.cache = e.cache ∧
    (∀ c : Cache,
      (({ e with cache := c } : Ec2Info σ μ).AddressesByTag env tagName tagValue addrType).ret =
        (e.AddressesByTag env tagName tagValue addrType).ret ∧
      (({ e with cache := c } : Ec2Info σ μ).AddressesByTag env tagName tagValue addrType).calls =
        (e.AddressesByTag env tagName tagValue addrType).calls ∧
      (({ e with cache := c } : Ec2Info σ μ).AddressesByTag env tagName tagValue
        addrType).e.cache = c) ∧
    ((describerReply env e
        { Filters := [{ Name := "tag:" ++ tagName, Values := [tagValue] },
                      { Name := "instance-state-name", Values := ["running"] }],
          InstanceIds := [] }).err.isSome = true →
      (e.AddressesByTag env tagName tagValue addrType).ret = .ok none) := by
  obtain ⟨hcalls, he, hret⟩ := AddressesByTag_valid env e tagName tagValue addrType hkind
  obtain ⟨hcalls1, hret1⟩ := describeInstances_cloud env e (addressFilters tagName tagValue) hcloud
  refine ⟨?_, ?_, ?_, ?_⟩
  · rw [hcalls, hcalls1]; rfl
  · rw [he]; exact (describeInstances_cache env e _).1
  · intro c
    obtain ⟨hcalls2, he2, hret2⟩ :=
      AddressesByTag_valid env { e with cache := c } tagName tagValue addrType hkind
    obtain ⟨hr, hc⟩ := describeInstances_any_cache env e (addressFilters tagName tagValue) c
    refine ⟨?_, ?_, ?_⟩
    · rw [hret2, hret, hr]
    · rw [hcalls2, hcalls, hc]
    · rw [he2]; exact (describeInstances_cache env { e with cache := c } _).1
  · intro herr
    have herr1 : (describerReply env e
        { Filters := addressFilters tagName tagValue, InstanceIds := [] }).err.isSome = true :=
      herr
    rw [hret, hret1, herr1]
    rfl

/-- Witness of C8: a cached description of the local instance does not keep
`AddressesByTag` from calling the describer. -/
theorem AddressesByTag_is_not_memoized_witness :
    (({ fakeInfo false with cache := [("DescribeInstances", some tagScenario)] } :
        Ec2Info Nat Unit).AddressesByTag
      (fakeEnv { output := some addressScenario, err := none }) "role" "web" "public_v4").calls =
      [{ Filters := [{ Name := "tag:" ++ "role", Values := ["web"] },
                     { Name := "instance-state-name", Values := ["running"] }],
         InstanceIds := [] }] :=
  (AddressesByTag_is_not_memoized (fakeEnv { output := some addressScenario, err := none })
    { fakeInfo false with cache := [("DescribeInstances", some tagScenario)] }
    "role" "web" "public_v4" (by decide) (by decide)).1

/-! ## The address extraction loops against the specification -/

theorem parseLoop_eq (parseIP : String → Option IP) :
    ∀ (addrs : List String) (parsedAddrs : List IP),
      parseLoop parseIP parsedAddrs addrs = parsedAddrs ++ addrs.filterMap parseIP := by
  intro addrs
  induction addrs with
  | nil => intro acc; simp [parseLoop]
  | cons a rest ih =>
    intro acc
    cases h : parseIP a with
    | none => simp [parseLoop, h, ih]
    | some ip => simp [parseLoop, h, ih]

theorem ipv6AddressLoop_eq :
    ∀ (as : List (Option InstanceIpv6Address)) (addrs : List String),
      as.all wfIpv6Address = true →
      ipv6AddressLoop addrs as =
        .ok (addrs ++ (as.reduceOption.map fun a => a.Ipv6Address).reduceOption) := by
  intro as
  induction as with
  | nil => intro addrs _; simp [ipv6AddressLoop]
  | cons a rest ih =>
    intro addrs hwf
    simp only [List.all_cons, Bool.and_eq_true] at hwf
    match a, hwf with
    | some { Ipv6Address := some s }, hwf =>
      simp [ipv6AddressLoop, ih (addrs ++ [s]) hwf.2, List.reduceOption_cons_of_some]

theorem networkInterfaceLoop_eq :
    ∀ (nis : List (Option InstanceNetworkInterface)) (addrs : List String),
      nis.all wfNetworkInterface = true →
      networkInterfaceLoop addrs nis =
        .ok (addrs ++ nis.reduceOption.flatMap fun ni =>
          ((ni.Ipv6Addresses.getD []).reduceOption.map fun a => a.Ipv6Address).reduceOption) := by
  intro nis
  induction nis with
  | nil => intro addrs _; simp [networkInterfaceLoop]
  | cons ni rest ih =>
    intro addrs hwf
    simp only [List.all_cons, Bool.and_eq_true] at hwf
    match ni, hwf with
    | some { Ipv6Addresses := none }, hwf =>
      simp [networkInterfaceLoop, ih addrs hwf.2, List.reduceOption_cons_of_some]
    | some { Ipv6Addresses := some as }, hwf =>
      have h1 : as.all wfIpv6Address = true := hwf.1
      simp [networkInterfaceLoop, ipv6AddressLoop_eq as addrs h1, ih _ hwf.2,
        List.reduceOption_cons_of_some]

theorem instanceStep_eq (addrType : String)
    (hkind : addrType = "private_v4" ∨ addrType = "public_v4" ∨ addrType = "public_v6")
    (addrs : List String) (i : Instance) (hwf : wfInstance (some i) = true) :
    instanceStep addrType addrs (some i) = .ok (addrs ++ specInstanceAddrs addrType i) := by
  simp only [wfInstance, Bool.and_eq_true] at hwf
  rcases hkind with h | h | h
  · subst h
    cases hp : i.PrivateIpAddress <;> simp [instanceStep, specInstanceAddrs, hp]
  · subst h
    cases hp : i.PublicIpAddress <;> simp [instanceStep, specInstanceAddrs, hp]
  · subst h
    simp [instanceStep, specInstanceAddrs, networkInterfaceLoop_eq _ addrs hwf.2]

theorem instanceLoop_eq (addrType : String)
    (hkind : addrType = "private_v4" ∨ addrType = "public_v4" ∨ addrType = "public_v6") :
    ∀ (is : List (Option Instance)) (addrs : List String),
      is.all wfInstance = true →
      instanceLoop addrType addrs is =
        .ok (addrs ++ is.reduceOption.flatMap (specInstanceAddrs addrType)) := by
  intro is
  induction is with
  | nil => intro addrs _; simp [instanceLoop]
  | cons inst rest ih =>
    intro addrs hwf
    simp only [List.all_cons, Bool.and_eq_true] at hwf
    cases inst with
    | none => simp [wfInstance] at hwf
    | some i =>
      simp [instanceLoop, instanceStep_eq addrType hkind addrs i hwf.1, ih _ hwf.2,
        List.reduceOption_cons_of_some]

theorem reservationLoop_eq (addrType : String)
    (hkind : addrType = "private_v4" ∨ addrType = "public_v4" ∨ addrType = "public_v6") :
    ∀ (rs : List (Option Reservation)) (addrs : List String),
      rs.all wfReservation = true →
      reservationLoop addrType addrs rs =
        .ok (addrs ++ rs.reduceOption.flatMap fun r =>
          r.Instances.reduceOption.flatMap (specInstanceAddrs addrType)) := by
  intro rs
  induction rs with
  | nil => intro addrs _; simp [reservationLoop]
  | cons r rest ih =>
    intro addrs hwf
    simp only [List.all_cons, Bool.and_eq_true] at hwf
    cases r with
    | none => simp [wfReservation] at hwf
    | some r =>
      have h1 : r.Instances.all wfInstance = true := hwf.1
      simp [reservationLoop, instanceLoop_eq addrType hkind r.Instances addrs h1, ih _ hwf.2,
        List.reduceOption_cons_of_some]

theorem addressesOfOutput_eq (parseIP : String → Option IP) (addrType : String)
    (hkind : addrType = "private_v4" ∨ addrType = "public_v4" ∨ addrType = "public_v6")
    (out : DescribeInstancesOutput) (hwf : out.WellFormed) :
    addressesOfOutput parseIP out addrType = .ok (some (specAddresses parseIP addrType out)) := by
  unfold addressesOfOutput
  rw [reservationLoop_eq addrType hkind out.Reservations [] hwf]
  simp [parseLoop_eq, specAddresses, specCollected]

/-- C4. In a cloud environment, for an `addrType` among `"private_v4"`, `"public_v4"` and
`"public_v6"`, when the describer answers the filtered request without error with a well
formed response, `AddressesByTag` returns exactly the list of the specification: the strings
collected by walking reservations, then instances (then, for `public_v6`, interfaces and
their IPv6 addresses) in order, those that `ParseIP` rejects being dropped; a nil response
gives the nil slice. -/
theorem AddressesByTag_returns_spec_addresses {σ μ : Type} (env : Env σ μ) (e : Ec2Info σ μ)
    (tagName tagValue addrType : String) (o : Option DescribeInstancesOutput)
    (hkind : addrType = "private_v4" ∨ addrType = "public_v4" ∨ addrType = "public_v6")
    (hcloud : e.metaClient.nonAWS = false)
    (hreply : describerReply env e
      { Filters := addressFilters tagName tagValue, InstanceIds := [] } =
        { output := o, err := none })
    (hwf : ∀ out, o = some out → out.WellFormed) :
    (e.AddressesByTag env tagName tagValue addrType).ret =
      .ok (o.map (specAddresses env.ParseIP addrType)) := by
  obtain ⟨_, _, hret⟩ := AddressesByTag_valid env e tagName tagValue addrType hkind
  obtain ⟨_, hret1⟩ := describeInstances_cloud env e (addressFilters tagName tagValue) hcloud
  rw [hreply] at hret1
  simp only [Option.isSome_none, Bool.false_eq_true, if_false] at hret1
  rw [hret, hret1]
  cases o with
  | none => rfl
  | some out => exact addressesOfOutput_eq env.ParseIP addrType hkind out (hwf out rfl)

/-- Witness of C4: the private addresses of the fleet come back in the order of the
response, the instance without one and the unparsable string skipped, the repeated
address kept. -/
theorem AddressesByTag_returns_spec_addresses_witness :
    ((fakeInfo false).AddressesByTag (fakeEnv { output := some addressScenario, err := none })
      "role" "web" "private_v4").ret =
      .ok (some [[10, 0, 0, 2], [10, 0, 0, 1], [10, 0, 0, 2]]) :=
  AddressesByTag_returns_spec_addresses
    (fakeEnv { output := some addressScenario, err := none }) (fakeInfo false)
    "role" "web" "private_v4" (some addressScenario) (by decide) (by decide) (by decide)
    (by intro out h; cases h; decide)

/-! ## Sequences of `Tag` calls -/

theorem Tag_calls_e {σ μ : Type} (env : Env σ μ) (e : Ec2Info σ μ) (t : String)
    (d : List String) :
    (e.Tag env t d).calls = (describeInstance env e).calls ∧
    (e.Tag env t d).e = (describeInstance env e).e := by
  unfold Ec2Info.Tag
  simp only
  split <;> exact ⟨rfl, rfl⟩

theorem describeInstance_of_cached_entry {σ μ : Type} (env : Env σ μ) (e : Ec2Info σ μ)
    (h : (e.cache.lookup "DescribeInstances").isSome = true) :
    (describeInstance env e).calls = [] ∧
    ((describeInstance env e).e.cache.lookup "DescribeInstances").isSome = true := by
  cases hflag : e.metaClient.nonAWS with
  | true =>
    rw [describeInstance_nonAWS env e hflag]
    exact ⟨rfl, h⟩
  | false =>
    obtain ⟨o, ho⟩ := Option.isSome_iff_exists.1 h
    rw [describeInstance_cached env e o hflag ho]
    exact ⟨rfl, h⟩

theorem tagCalls_of_cached_entry {σ μ : Type} (env : Env σ μ) :
    ∀ (reqs : List (String × List String)) (e : Ec2Info σ μ),
      (e.cache.lookup "DescribeInstances").isSome = true →
      tagCalls env e reqs = List.replicate reqs.length [] := by
  intro reqs
  induction reqs with
  | nil => intro e _; rfl
  | cons req rest ih =>
    intro e h
    obtain ⟨t, d⟩ := req
    obtain ⟨hc, he⟩ := Tag_calls_e env e t d
    obtain ⟨h1, h2⟩ := describeInstance_of_cached_entry env e h
    simp only [tagCalls, List.length_cons, List.replicate_succ]
    rw [hc, h1, ih _ (by rw [he]; exact h2)]

/-- C3, as stated, fails: against a describer that answers with an error nothing is cached,
and two `Tag` calls on one `Ec2Info` issue one request each, two in total. -/
theorem Tag_calls_at_most_once_counterexample :
    tagCalls (fakeEnv { output := none, err := some "timeout" }) (fakeInfo false)
        [("env", []), ("env", [])] =
      [[{ Filters := [], InstanceIds := ["i-0123"] }],
       [{ Filters := [], InstanceIds := ["i-0123"] }]] ∧
    ¬ ((tagCalls (fakeEnv { output := none, err := some "timeout" }) (fakeInfo false)
        [("env", []), ("env", [])]).map List.length).sum ≤ 1 := by
  decide

/-- C3, amended. In a cloud environment, with nothing cached, when the describer answers the
request for the local instance without error, in every sequence of `Tag` calls on the same
`Ec2Info` the first call issues exactly that one request and every later call issues
none. -/
theorem Tag_calls_once_after_success {σ μ : Type} (env : Env σ μ) (e : Ec2Info σ μ)
    (t : String) (d : List String) (rest : List (String × List String))
    (hcloud : e.metaClient.nonAWS = false)
    (hmiss : e.cache.lookup "DescribeInstances" = none)
    (hok : (describerReply env e (localInstanceRequest env e)).err = none) :
    tagCalls env e ((t, d) :: rest) =
      [localInstanceRequest env e] :: List.replicate rest.length [] := by
  obtain ⟨hc, he⟩ := Tag_calls_e env e t d
  obtain ⟨_, hcalls, hcache⟩ := describeInstance_fetch_ok env e hcloud hmiss hok
  simp only [tagCalls]
  rw [hc, hcalls, tagCalls_of_cached_entry env rest _ (by rw [he, hcache]; rfl)]

/-- Witness of C3, amended: three `Tag` calls against a describer that answers. -/
theorem Tag_calls_once_after_success_witness :
    tagCalls (fakeEnv { output := some tagScenario, err := none }) (fakeInfo false)
        [("env", []), ("Name", ["x"]), ("env", ["y"])] =
      [[{ Filters := [], InstanceIds := ["i-0123"] }], [], []] :=
  Tag_calls_once_after_success (fakeEnv { output := some tagScenario, err := none })
    (fakeInfo false) "env" [] [("Name", ["x"]), ("env", ["y"])]
    (by decide) (by decide) (by decide)

/-! ## Session provider and adapter -/

/-- C9. The first `SDKSession` call builds its session from `sdkSessionConfig`, whose region
is left as `aws.NewConfig()` has it whenever `AWS_REGION` or `AWS_DEFAULT_REGION` is present,
whatever its value; the region is set, to the metadata region, exactly when neither variable
is present and the metadata region is not `"unknown"`, and is left unset otherwise. -/
theorem SDKSession_region_resolution (lookupEnv : String → Option String)
    (region : ClientOptions → String) (options : ClientOptions) :
    (SDKSession { sdkSession := none, sdkSessionInit := false } lookupEnv region options).1 =
      some { Config := sdkSessionConfig lookupEnv region options, SharedConfigEnable := true } ∧
    ((lookupEnv "AWS_REGION").isSome = true ∨ (lookupEnv "AWS_DEFAULT_REGION").isSome = true →
      (sdkSessionConfig lookupEnv region options).Region = NewConfig.Region) ∧
    ((sdkSessionConfig lookupEnv region options).Region = some (region options) ↔
      lookupEnv "AWS_REGION" = none ∧ lookupEnv "AWS_DEFAULT_REGION" = none ∧
        region options ≠ "unknown") ∧
    ((sdkSessionConfig lookupEnv region options).Region = none ∨
      (sdkSessionConfig lookupEnv region options).Region = some (region options)) := by
  refine ⟨rfl, ?_, ?_, ?_⟩
  · intro h
    unfold sdkSessionConfig
    rcases h with h | h <;> simp [h, NewConfig, Config.WithHTTPClient]
  · unfold sdkSessionConfig
    cases h1 : lookupEnv "AWS_REGION" <;> cases h2 : lookupEnv "AWS_DEFAULT_REGION" <;>
      by_cases h3 : region options = "unknown" <;>
      simp [h3, NewConfig, Config.WithHTTPClient, Config.WithRegion]
  · unfold sdkSessionConfig
    simp only [NewConfig, Config.WithHTTPClient, Config.WithRegion]
    split
    · exact Or.inr rfl
    · exact Or.inl rfl

/-- Witness of C9: `AWS_REGION` present but empty, the metadata region `eu-west-1`: the
region stays unset. -/
theorem SDKSession_region_resolution_witness :
    (sdkSessionConfig (fun name => if name = "AWS_REGION" then some "" else none)
      (fun _ => "eu-west-1") { Timeout := 0 }).Region = NewConfig.Region :=
  (SDKSession_region_resolution (fun name => if name = "AWS_REGION" then some "" else none)
    (fun _ => "eu-west-1") { Timeout := 0 }).2.1 (Or.inl (by decide))

/-- C10. Once `a.infoInit.Do(a.initInfo)` has left the `Ec2Info` `e` in `a.info`,
`DiscoverAddrsByEC2Tag(tagName, tagValue)` returns what
`e.AddressesByTag(tagName, tagValue, "private_v4")` returns, and
`DiscoverAddrsByEC2Tag(tagName, tagValue, k)` returns what
`e.AddressesByTag(tagName, tagValue, k)` returns, with the same requests to the describer and
the same `Ec2Info` afterwards. -/
theorem DiscoverAddrsByEC2Tag_refines_AddressesByTag {σ μ : Type} (fenv : FuncsEnv σ μ)
    (env : Env σ μ) (a : Funcs σ μ) (e : Ec2Info σ μ) (tagName tagValue : String)
    (hinfo : (a.infoInitDo fenv).info = some e) :
    ((a.DiscoverAddrsByEC2Tag fenv env tagName tagValue []).ret =
        (e.AddressesByTag env tagName tagValue "private_v4").ret ∧
      (a.DiscoverAddrsByEC2Tag fenv env tagName tagValue []).calls =
        (e.AddressesByTag env tagName tagValue "private_v4").calls ∧
      (a.DiscoverAddrsByEC2Tag fenv env tagName tagValue []).a.info =
        some (e.AddressesByTag env tagName tagValue "private_v4").e) ∧
    (∀ k : String,
      (a.DiscoverAddrsByEC2Tag fenv env tagName tagValue [k]).ret =
        (e.AddressesByTag env tagName tagValue k).ret ∧
      (a.DiscoverAddrsByEC2Tag fenv env tagName tagValue [k]).calls =
        (e.AddressesByTag env tagName tagValue k).calls ∧
      (a.DiscoverAddrsByEC2Tag fenv env tagName tagValue [k]).a.info =
        some (e.AddressesByTag env tagName tagValue k).e) := by
  constructor
  · simp [Funcs.DiscoverAddrsByEC2Tag, Funcs.infoAddressesByTag, hinfo]
  · intro k
    simp [Funcs.DiscoverAddrsByEC2Tag, Funcs.infoAddressesByTag, hinfo]

/-- Witness of C10: on a fresh adapter the kind defaults to `"private_v4"`. -/
theorem DiscoverAddrsByEC2Tag_refines_AddressesByTag_witness :
    (fakeFuncs.DiscoverAddrsByEC2Tag fakeFuncsEnv
      (fakeEnv { output := some addressScenario, err := none }) "role" "web" []).ret =
      .ok (some [[10, 0, 0, 2], [10, 0, 0, 1], [10, 0, 0, 2]]) :=
  (DiscoverAddrsByEC2Tag_refines_AddressesByTag fakeFuncsEnv
    (fakeEnv { output := some addressScenario, err := none }) fakeFuncs
    (NewEc2Info 0 (fun _ => { nonAWS := false, client := () }) { Timeout := 0 })
    "role" "web" rfl).1.1

/-! ## Outside the data model

The well-formedness hypotheses above are needed: the code dereferences the pointers of a
response without checking them. -/

/-- A tag record whose `Key` is nil, met before a match, makes `Tag` panic. -/
theorem Tag_panics_on_nil_key :
    ((fakeInfo false).Tag
      (fakeEnv
        { output := some { Reservations := [some { Instances := [some
            { Tags := [some { Key := none, Value := some "x" },
                       some { Key := some "env", Value := some "prod" }]
              PrivateIpAddress := none
              PublicIpAddress := none
              NetworkInterfaces := [] }] }] }
          err := none })
      "env" ["d"]).ret = .error .nilDeref := by
  decide

/-- A nil instance record makes `AddressesByTag` panic. -/
theorem AddressesByTag_panics_on_nil_instance :
    ((fakeInfo false).AddressesByTag
      (fakeEnv
        { output := some { Reservations := [some { Instances := [none] }] }, err := none })
      "role" "web" "private_v4").ret = .error .nilDeref := by
  decide

end Gomplate
